import Mathlib

set_option linter.unusedVariables false

/-!
Shallow embedding of the RAG sample project's ingestion / retrieval core.

Sources embedded (Python → Lean):
  * `app/core/config.py`       — `EMBEDDING_MODEL`, `EMBEDDING_DIMENSION`
  * `app/core/database.py`     — `Document`, `Embedding` rows
  * `app/services/embedding_service.py`
        — `get_embedding`, `search_similar_documents`
  * `app/services/llm_service.py`  — `generate_rag_response`
  * `app/services/document_service.py` — `create_document`, `get_documents_by_ids`
  * `app/api/endpoints.py`     — `query_documents`
  * `worker/worker.py`         — `process_document`, `callback`

External collaborators (Postgres/pgvector, RabbitMQ, the OpenAI HTTP API,
SQLAlchemy inserts) are modelled as explicit oracle arguments: each call the
Python code makes to such a collaborator becomes a function argument giving
that call's outcome, and an exception raised by a collaborator becomes an
`Except .error` value, while Python `raise` inside the embedded code becomes
returning `.error`.  Python floats are modelled as rationals (`ℚ`), JSONB
metadata as association lists, and JSON payloads by the `Json` type below.
-/

namespace RAG

/-! ### Data model (`app/core/database.py`, `app/api/models.py`) -/

/-- `database.py` `Document` row: id, content, meta_info (JSONB, modelled as
an association list), created_at timestamp. -/
structure Document where
  id : Nat
  content : String
  meta_info : List (String × String)
  created_at : Nat
  deriving Repr, DecidableEq

/-- `database.py` `Embedding` row: owning document id and the stored vector
(floats modelled as rationals). -/
structure EmbeddingRow where
  document_id : Nat
  embedding : List ℚ
  deriving Repr, DecidableEq

/-- The relational database visible to the services: the `documents` and
`embeddings` tables. -/
structure DB where
  documents : List Document
  embeddings : List EmbeddingRow
  deriving Repr, DecidableEq

/-- `models.py` `DocumentCreate`: content plus optional meta_info
(pydantic default is the empty object). -/
structure DocumentCreate where
  content : String
  meta_info : List (String × String)
  deriving Repr, DecidableEq

/-- `models.py` `Query`: query string, top_k (pydantic default 3) and the
caller-supplied completion model name (`Optional[str]`). -/
structure Query where
  query : String
  top_k : Nat
  model : Option String
  deriving Repr, DecidableEq

/-- `models.py` `RAGResponse`: answer plus source documents. -/
structure RAGResponse where
  answer : String
  sources : List Document
  deriving Repr, DecidableEq

/-- `config.py`: `if not settings.OPENAI_API_KEY` — the environment variable
is either unset (`none`, `os.getenv` returns `None`) or a string, and both
`None` and the empty string are falsy. -/
def apiKeyMissing : Option String → Bool
  | none => true
  | some k => k.isEmpty

/-- `config.py` `EMBEDDING_MODEL`. -/
def EMBEDDING_MODEL : String := "text-embedding-3-small"

/-- `config.py` `EMBEDDING_DIMENSION`. -/
def EMBEDDING_DIMENSION : Nat := 1536

/-! ### Vector store (`embedding_service.save_embedding` /
`search_similar_documents`) -/

/-- One row of the result set of the similarity-search SQL query in
`search_similar_documents`: `SELECT d.id, d.content, d.meta_info, d.created_at,
1 - (e.embedding <=> q) AS similarity`. -/
structure SimilarityRow where
  id : Nat
  content : String
  meta_info : List (String × String)
  created_at : Nat
  similarity : ℚ
  deriving Repr, DecidableEq

/-- The SQL join `FROM embeddings e JOIN documents d ON e.document_id = d.id`:
for every embedding row, every document row whose id matches. -/
def joinRows (db : DB) : List (Document × EmbeddingRow) :=
  db.embeddings.flatMap fun e =>
    (db.documents.filter fun d => d.id == e.document_id).map fun d => (d, e)

/-- Row comparison used by `ORDER BY similarity DESC`: `a` precedes `b` when
`a.similarity ≥ b.similarity`. -/
def simGE (a b : SimilarityRow) : Prop := b.similarity ≤ a.similarity

instance : DecidableRel simGE := fun a b =>
  inferInstanceAs (Decidable (b.similarity ≤ a.similarity))

instance : IsTotal SimilarityRow simGE :=
  ⟨fun a b => le_total b.similarity a.similarity⟩

instance : IsTrans SimilarityRow simGE :=
  ⟨fun _ _ _ h1 h2 => le_trans h2 h1⟩

/-- `embedding_service.search_similar_documents(db, query_embedding, top_k)`.
The SQL computes, over the join of `embeddings` and `documents`, the column
`1 - (e.embedding <=> query)` (pgvector's `<=>` cosine-distance operator is
external to the repository and is passed in as `dist`), orders the rows by
that similarity descending (`ORDER BY similarity DESC`, ties in store-native
order) and keeps at most `top_k` rows (`LIMIT top_k`). -/
def search_similar_documents (dist : List ℚ → List ℚ → ℚ) (db : DB)
    (query_embedding : List ℚ) (top_k : Nat) : List SimilarityRow :=
  let rows := (joinRows db).map fun p =>
    { id := p.1.id
      content := p.1.content
      meta_info := p.1.meta_info
      created_at := p.1.created_at
      similarity := 1 - dist p.2.embedding query_embedding : SimilarityRow }
  (List.insertionSort simGE rows).take top_k

/-! ### Embedding Gateway (`embedding_service.get_embedding`) -/

/-- Payload `get_embedding` posts to `https://api.openai.com/v1/embeddings`:
`{model: settings.EMBEDDING_MODEL, input: text}`. -/
structure EmbeddingRequest where
  model : String
  input : String
  deriving Repr, DecidableEq

/-- One element of `data["data"]` in the embeddings response; `hasEmbedding`
models whether the `"embedding"` key is present. -/
structure EmbedItem where
  hasEmbedding : Bool
  embedding : List ℚ
  deriving Repr, DecidableEq

/-- Parsed JSON body of the embeddings response; `dataPresent` models whether
the `"data"` key is present. -/
structure EmbedData where
  dataPresent : Bool
  items : List EmbedItem
  deriving Repr, DecidableEq

/-- Outcome of the HTTP POST made by `get_embedding`: either `httpx` raised
(network error / timeout), or a response arrived with a status code, a body
text and — when the body is valid JSON — its parsed form. -/
inductive EmbedHttpOutcome where
  | raised (msg : String)
  | ok (status : Nat) (text : String) (data : Option EmbedData)
  deriving Repr

/-- Result of one `get_embedding` call: the returned vector or the propagated
exception, together with the warnings printed on the way. -/
structure EmbedCallResult where
  result : Except String (List ℚ)
  warnings : List String
  deriving Repr

/-- `embedding_service.get_embedding(text)`.  Raises when the API key is
falsy, when the POST raises, on a non-200 status, on a non-JSON body, and on
a structurally unexpected body; on success it warns — but does not fail —
when the vector's length differs from `EMBEDDING_DIMENSION`, and returns the
vector unchanged.  (The surrounding `try/except` prints and re-raises, so
every failure propagates.) -/
def get_embedding (apiKey : Option String)
    (post : EmbeddingRequest → EmbedHttpOutcome) (text : String) :
    EmbedCallResult :=
  if apiKeyMissing apiKey then
    { result := .error "OpenAI API key is required for embeddings but not provided"
      warnings := [] }
  else
    match post { model := EMBEDDING_MODEL, input := text } with
    | .raised e => { result := .error e, warnings := [] }
    | .ok status text data =>
      if status ≠ 200 then
        { result := .error ("OpenAI API returned status code " ++ toString status ++
            (if text ≠ "" then ": " ++ text else ""))
          warnings := [] }
      else
        match data with
        | none => { result := .error "response body is not valid JSON", warnings := [] }
        | some d =>
          if d.dataPresent = false then
            { result := .error "Unexpected response format from OpenAI API", warnings := [] }
          else
            match d.items with
            | [] => { result := .error "Unexpected response format from OpenAI API", warnings := [] }
            | item :: _ =>
              if item.hasEmbedding = false then
                { result := .error "Unexpected response format from OpenAI API", warnings := [] }
              else
                let dimensions := item.embedding.length
                { result := .ok item.embedding
                  warnings :=
                    if dimensions ≠ EMBEDDING_DIMENSION then
                      ["Warning: Retrieved embedding has " ++ toString dimensions ++
                        " dimensions, but config expected " ++ toString EMBEDDING_DIMENSION]
                    else [] }

/-! ### Generation Gateway (`llm_service.generate_rag_response`) -/

/-- Payload `generate_rag_response` posts to the chat-completions endpoint:
the completion model name and the (role, content) messages. -/
structure ChatRequest where
  model : String
  messages : List (String × String)
  deriving Repr, DecidableEq

/-- One element of `data["choices"]`; `hasMessage` models whether the
`"message"` key is present, `content` its `"content"`. -/
structure ChatChoice where
  hasMessage : Bool
  content : String
  deriving Repr, DecidableEq

/-- Parsed JSON body of the chat-completions response; `choicesPresent`
models whether the `"choices"` key is present. -/
structure ChatData where
  choicesPresent : Bool
  choices : List ChatChoice
  deriving Repr, DecidableEq

/-- Outcome of the HTTP POST made by `generate_rag_response`. -/
inductive ChatHttpOutcome where
  | raised (msg : String)
  | ok (status : Nat) (text : String) (data : Option ChatData)
  deriving Repr

/-- The fixed system prompt of `generate_rag_response` (triple-quoted in the
source, hence the embedded indentation). -/
def systemPrompt : String :=
  "You are an AI assistant that answers questions based on the provided context.\n        If the answer cannot be found in the context, acknowledge that you don\u0027t know rather than making up information.\n        Provide a clear, concise answer that directly addresses the question, citing relevant information from the context."

/-- The request `generate_rag_response(query, context, model)` sends: contexts
joined by a blank line into the user message, and the completion model
hard-coded to `openai_model = "gpt-3.5-turbo"` (the `model` parameter is not
used). -/
def chatRequestPayload (query : String) (context : List String)
    (model : Option String) : ChatRequest :=
  let context_text := String.intercalate "\n\n" context
  { model := "gpt-3.5-turbo"
    messages :=
      [("system", systemPrompt),
       ("user", "Context information is below:\n\n" ++ context_text ++
          "\n\nQuestion: " ++ query ++ "\n\nAnswer:")] }

/-- The `try` block of `generate_rag_response`: raises when the API key is
falsy, when the POST raises, on a non-200 status, on a non-JSON body, and on
a structurally unexpected body; otherwise returns
`data["choices"][0]["message"]["content"]`. -/
def generate_rag_response_attempt (apiKey : Option String)
    (post : ChatRequest → ChatHttpOutcome) (query : String)
    (context : List String) (model : Option String) : Except String String :=
  if apiKeyMissing apiKey then
    .error "OpenAI API key is required but not provided"
  else
    match post (chatRequestPayload query context model) with
    | .raised e => .error e
    | .ok status text data =>
      if status ≠ 200 then
        .error ("OpenAI API returned status code " ++ toString status ++
          (if text ≠ "" then ": " ++ text else ""))
      else
        match data with
        | none => .error "response body is not valid JSON"
        | some d =>
          if d.choicesPresent = false then
            .error "Unexpected response format from OpenAI API"
          else
            match d.choices with
            | [] => .error "Unexpected response format from OpenAI API"
            | c :: _ =>
              if c.hasMessage = false then
                .error "Unexpected response format from OpenAI API"
              else
                .ok c.content

/-- The degraded-answer prefix of the `except` branch of
`generate_rag_response` when at least one context exists. -/
def degradedAnswerPrefix : String :=
  "I encountered an issue when generating a response. However, I found relevant information that might help: \n\n"

/-- The degraded answer of the `except` branch when no context exists. -/
def cannotProcessMessage : String :=
  "I\u0027m sorry, I encountered an issue while processing your query. Please try again later."

/-- `llm_service.generate_rag_response(query, context, model)`: the whole body
is wrapped in `try/except Exception`, so every failure of the attempt is
absorbed into a degraded answer — `context[0]` behind the fixed prefix when
`context` is non-empty, the generic message otherwise. -/
def generate_rag_response (apiKey : Option String)
    (post : ChatRequest → ChatHttpOutcome) (query : String)
    (context : List String) (model : Option String) : String :=
  match generate_rag_response_attempt apiKey post query context model with
  | .ok answer => answer
  | .error _ =>
    match context with
    | [] => cannotProcessMessage
    | c :: _ => degradedAnswerPrefix ++ c

/-! ### Record store reads (`document_service`) -/

/-- `document_service.get_documents_by_ids(db, document_ids)`:
`SELECT * FROM documents WHERE id IN document_ids` — each table row is
returned at most once however often its id repeats in `document_ids`. -/
def get_documents_by_ids (db : DB) (document_ids : List Nat) : List Document :=
  db.documents.filter fun d => document_ids.contains d.id

/-! ### Document submission (`document_service.create_document`) -/

/-- `document_service.create_document(db, document)`: insert and commit the
row (`db.add/commit/refresh`, the record-store oracle `insertDocument`), then
publish the ingestion event (`queue_service.publish_document`, the queue
oracle `publish`, applied to the committed row's id/content/meta_info).
There is no `try/except` around the publish, so a queue exception propagates
to the caller; the created Document is returned only when the publish also
returned normally. -/
def create_document
    (insertDocument : DocumentCreate → Except String Document)
    (publish : Nat → String → List (String × String) → Except String Unit)
    (document : DocumentCreate) : Except String Document :=
  match insertDocument document with
  | .error e => .error e
  | .ok db_document =>
    match publish db_document.id db_document.content db_document.meta_info with
    | .error e => .error e
    | .ok _ => .ok db_document

/-! ### Query endpoint (`endpoints.query_documents`) -/

/-- The short-circuit answer returned when the similarity search finds
nothing. -/
def notEnoughInfoAnswer : String :=
  "I don\u0027t have enough information to answer that question."

/-- Result of one run of the query endpoint, instrumented with whether the
Generation Gateway (`llm_service.generate_rag_response`) was invoked. -/
structure QueryOutcome where
  response : RAGResponse
  llmInvoked : Bool
  deriving Repr, DecidableEq

/-- `endpoints.query_documents(query, db)`: embed the query (a failure
propagates — the endpoint turns it into HTTP 500), search top-k, on zero
results short-circuit with the fixed answer and empty sources without calling
the Generation Gateway, otherwise generate the answer from the result
contents and attach the full source documents resolved by
`get_documents_by_ids`. -/
def query_documents (dist : List ℚ → List ℚ → ℚ) (apiKey : Option String)
    (embedPost : EmbeddingRequest → EmbedHttpOutcome)
    (chatPost : ChatRequest → ChatHttpOutcome)
    (db : DB) (q : Query) : Except String QueryOutcome :=
  match (get_embedding apiKey embedPost q.query).result with
  | .error e => .error e
  | .ok query_embedding =>
    let similar_docs := search_similar_documents dist db query_embedding q.top_k
    if similar_docs.isEmpty then
      .ok { response := { answer := notEnoughInfoAnswer, sources := [] }
            llmInvoked := false }
    else
      let contexts := similar_docs.map (·.content)
      let answer := generate_rag_response apiKey chatPost q.query contexts q.model
      let document_ids := similar_docs.map (·.id)
      let source_documents := get_documents_by_ids db document_ids
      .ok { response := { answer := answer, sources := source_documents }
            llmInvoked := true }

/-! ### Worker (`worker/worker.py`) -/

/-- A JSON value, for the message bodies the worker parses. -/
inductive Json where
  | null
  | bool (b : Bool)
  | num (n : Int)
  | str (s : String)
  | arr (items : List Json)
  | obj (fields : List (String × Json))
  deriving Repr

/-- Python `message[key]` on the parsed body: yields the field of an object,
`none` otherwise — `none` models the `KeyError` (key absent) or `TypeError`
(not a dict) these subscripts raise, both of which land in the worker's
generic `except Exception` handler. -/
def jsonGet (j : Json) (key : String) : Option Json :=
  match j with
  | .obj fields => fields.lookup key
  | _ => none

/-- What the worker callback does with the delivery tag. -/
inductive AckAction where
  | ack
  | nackRequeue
  | nackDrop
  deriving Repr, DecidableEq

/-- `worker.process_document(document_id, content, metadata)`: compute the
embedding (`get_embedding`, oracle `embed` — the value passed is whatever the
message carried), then persist it (`save_embedding`, oracle `save`).  Both
inner `try/except` blocks re-raise, so any failure propagates to the
callback. -/
def process_document (embed : Json → Except String (List ℚ))
    (save : Json → List ℚ → Except String Unit)
    (document_id : Json) (content : Json) (metadata : Json) :
    Except String Unit :=
  match embed content with
  | .error e => .error e
  | .ok embedding_vector =>
    match save document_id embedding_vector with
    | .error e => .error e
    | .ok _ => .ok ()

/-- `worker.callback(ch, method, properties, body)`.  `body = none` models a
body `json.loads` cannot decode: that `JSONDecodeError` is the only exception
with its own handler, `basic_nack(requeue=False)`.  A decoded body missing
`document_id` or `content` (or not a dict) raises `KeyError`/`TypeError`,
which falls to the generic handler: `basic_nack(requeue=True)`.  `metadata`
uses `.get` with default `{}` and cannot fail.  A parsed message is processed;
success is acknowledged, any processing failure is nacked with requeue. -/
def callback (embed : Json → Except String (List ℚ))
    (save : Json → List ℚ → Except String Unit)
    (body : Option Json) : AckAction :=
  match body with
  | none => .nackDrop
  | some message =>
    match jsonGet message "document_id" with
    | none => .nackRequeue
    | some document_id =>
      match jsonGet message "content" with
      | none => .nackRequeue
      | some content =>
        let metadata := (jsonGet message "metadata").getD (Json.obj [])
        match process_document embed save document_id content metadata with
        | .ok _ => .ack
        | .error _ => .nackRequeue

/-- Record-store row used by the concrete instances below. -/
def sampleDocument : Document :=
  { id := 1, content := "hello", meta_info := [], created_at := 0 }

/-! ## Theorems -/

/-- C6: for every query vector and every k, `search_similar_documents` returns
at most k results, ordered by descending similarity, and each reported
similarity equals 1 minus the (cosine) distance between the stored vector and
the query vector — exactly, hence within any floating-point tolerance. -/
theorem search_returns_at_most_k_sorted_by_similarity
    (dist : List ℚ → List ℚ → ℚ) (db : DB) (q : List ℚ) (k : Nat) :
    (search_similar_documents dist db q k).length ≤ k ∧
    List.Sorted simGE (search_similar_documents dist db q k) ∧
    ∀ r ∈ search_similar_documents dist db q k, ∃ p ∈ joinRows db,
      r.id = p.1.id ∧ r.similarity = 1 - dist p.2.embedding q := by
  refine ⟨?_, ?_, ?_⟩
  · simp [search_similar_documents, List.length_take]
  · exact List.Pairwise.sublist (List.take_sublist _ _)
      (List.sorted_insertionSort simGE _)
  · intro r hr
    have hr' := List.mem_of_mem_take hr
    rw [List.mem_insertionSort, List.mem_map] at hr'
    obtain ⟨p, hp, rfl⟩ := hr'
    exact ⟨p, hp, rfl, rfl⟩

/-- C7: for every query vector and every k, search on a vector store holding
no embeddings returns the empty list (and, being a total function on all such
inputs, raises no error). -/
theorem search_empty_store_returns_nil
    (dist : List ℚ → List ℚ → ℚ) (docs : List Document) (q : List ℚ) (k : Nat) :
    search_similar_documents dist ⟨docs, []⟩ q k = [] := by
  simp [search_similar_documents, joinRows]

/-- C4: whenever the try-block of the Generation Gateway fails — any upstream
error — `generate_rag_response` does not propagate the failure (it is a total
function into `String`) but returns the degraded answer: the first context
verbatim behind the fixed apology prefix when a context exists, the generic
cannot-process message otherwise. -/
theorem generation_degrades_never_raises (apiKey : Option String)
    (post : ChatRequest → ChatHttpOutcome) (query : String)
    (context : List String) (model : Option String) (e : String)
    (h : generate_rag_response_attempt apiKey post query context model = .error e) :
    (∀ c rest, context = c :: rest →
      generate_rag_response apiKey post query context model =
        degradedAnswerPrefix ++ c) ∧
    (context = [] →
      generate_rag_response apiKey post query context model =
        cannotProcessMessage) := by
  constructor
  · rintro c rest rfl
    simp [generate_rag_response, h]
  · rintro rfl
    simp [generate_rag_response, h]

/-- Witness for C4: an upstream that is forced to fail (here: no API key and
a network error) with context `["Paris is the capital of France."]` yields
exactly the apology prefix followed by that context. -/
theorem generation_degrades_never_raises_witness :
    generate_rag_response none (fun _ => .raised "connection reset")
      "What is the capital of France?" ["Paris is the capital of France."]
      none =
      degradedAnswerPrefix ++ "Paris is the capital of France." :=
  (generation_degrades_never_raises none (fun _ => .raised "connection reset")
      "What is the capital of France?" ["Paris is the capital of France."]
      none "OpenAI API key is required but not provided" rfl).1
    "Paris is the capital of France." [] rfl

/-- C9: the caller-supplied `model` argument has no influence on the request
sent upstream (whose model field is hard-coded to gpt-3.5-turbo) or on the
returned answer: `generate_rag_response` behaves identically for any two
values of it, all other inputs equal. -/
theorem model_argument_has_no_influence (apiKey : Option String)
    (post : ChatRequest → ChatHttpOutcome) (query : String)
    (context : List String) (m1 m2 : Option String) :
    chatRequestPayload query context m1 = chatRequestPayload query context m2 ∧
    (chatRequestPayload query context m1).model = "gpt-3.5-turbo" ∧
    generate_rag_response apiKey post query context m1 =
      generate_rag_response apiKey post query context m2 :=
  ⟨rfl, rfl, rfl⟩

/-- C8: on a successful, well-formed embeddings response the returned vector
is handed back unchanged whatever its length, and the dimension-mismatch
warning is absent exactly when the length equals the configured
`EMBEDDING_DIMENSION` — a mismatch is logged, never fatal. -/
theorem get_embedding_dimension_mismatch_not_fatal (apiKey : Option String)
    (post : EmbeddingRequest → EmbedHttpOutcome) (text rtext : String)
    (d : EmbedData) (item : EmbedItem) (rest : List EmbedItem)
    (hkey : apiKeyMissing apiKey = false)
    (hpost : post { model := EMBEDDING_MODEL, input := text } =
      .ok 200 rtext (some d))
    (hdata : d.dataPresent = true)
    (hitems : d.items = item :: rest)
    (hemb : item.hasEmbedding = true) :
    (get_embedding apiKey post text).result = .ok item.embedding ∧
    ((get_embedding apiKey post text).warnings = [] ↔
      item.embedding.length = EMBEDDING_DIMENSION) := by
  constructor
  · simp [get_embedding, hkey, hpost, hdata, hitems, hemb]
  · simp only [get_embedding, hkey, hpost, hdata, hitems, hemb]
    by_cases hl : item.embedding.length = EMBEDDING_DIMENSION
    · simp [hl]
    · simp [hl]

/-- Witness for C8: a response whose vector has length 2 against the
configured 1536 still yields the vector, with the warning present. -/
theorem get_embedding_dimension_mismatch_not_fatal_witness :
    (get_embedding (some "test-key")
        (fun _ => .ok 200 ""
          (some { dataPresent := true
                  items := [{ hasEmbedding := true, embedding := [1, 2] }] }))
        "hello").result = .ok [1, 2] ∧
    ((get_embedding (some "test-key")
        (fun _ => .ok 200 ""
          (some { dataPresent := true
                  items := [{ hasEmbedding := true, embedding := [1, 2] }] }))
        "hello").warnings = [] ↔ ([1, 2] : List ℚ).length = EMBEDDING_DIMENSION) :=
  get_embedding_dimension_mismatch_not_fatal (some "test-key")
    (fun _ => .ok 200 ""
      (some { dataPresent := true
              items := [{ hasEmbedding := true, embedding := [1, 2] }] }))
    "hello" ""
    { dataPresent := true
      items := [{ hasEmbedding := true, embedding := [1, 2] }] }
    { hasEmbedding := true, embedding := [1, 2] } [] rfl rfl rfl rfl rfl

/-- C5: when the query embedding succeeds and the similarity search yields
zero results, the query endpoint returns exactly the fixed
not-enough-information answer with an empty sources list and never invokes
the Generation Gateway. -/
theorem query_zero_results_short_circuit (dist : List ℚ → List ℚ → ℚ)
    (apiKey : Option String) (embedPost : EmbeddingRequest → EmbedHttpOutcome)
    (chatPost : ChatRequest → ChatHttpOutcome) (db : DB) (q : Query)
    (v : List ℚ)
    (hembed : (get_embedding apiKey embedPost q.query).result = .ok v)
    (hsearch : search_similar_documents dist db v q.top_k = []) :
    query_documents dist apiKey embedPost chatPost db q =
      .ok { response := { answer := notEnoughInfoAnswer, sources := [] }
            llmInvoked := false } := by
  simp [query_documents, hembed, hsearch]

/-- Witness for C5: a successful query embedding over an empty store. -/
theorem query_zero_results_short_circuit_witness :
    query_documents (fun _ _ => 0) (some "test-key")
      (fun _ => .ok 200 ""
        (some { dataPresent := true
                items := [{ hasEmbedding := true, embedding := [1] }] }))
      (fun _ => .raised "generation gateway must not be reached")
      { documents := [], embeddings := [] }
      { query := "What color is the sky?", top_k := 3, model := none } =
      .ok { response := { answer := notEnoughInfoAnswer, sources := [] }
            llmInvoked := false } :=
  query_zero_results_short_circuit (fun _ _ => 0) (some "test-key") _ _
    { documents := [], embeddings := [] }
    { query := "What color is the sky?", top_k := 3, model := none }
    [1] rfl rfl

/-- C10: under the primary-key invariant of the documents table, the sources
attached to a successful query response carry each document id at most once,
because `get_documents_by_ids` (`WHERE id IN ...`) returns table rows, not
one row per requested id — however often duplicate embeddings repeat an id
among the top-k similarity results. -/
theorem query_sources_distinct_ids (dist : List ℚ → List ℚ → ℚ)
    (apiKey : Option String) (embedPost : EmbeddingRequest → EmbedHttpOutcome)
    (chatPost : ChatRequest → ChatHttpOutcome) (db : DB) (q : Query)
    (out : QueryOutcome)
    (hpk : (db.documents.map Document.id).Nodup)
    (hok : query_documents dist apiKey embedPost chatPost db q = .ok out) :
    (out.response.sources.map Document.id).Nodup := by
  have hfilter : ∀ ids : List Nat,
      ((get_documents_by_ids db ids).map Document.id).Nodup := fun ids =>
    List.Pairwise.sublist ((List.filter_sublist _).map Document.id) hpk
  simp only [query_documents] at hok
  cases hembed : (get_embedding apiKey embedPost q.query).result with
  | error e =>
    rw [hembed] at hok
    simp at hok
  | ok v =>
    rw [hembed] at hok
    cases hs : (search_similar_documents dist db v q.top_k).isEmpty with
    | true =>
      simp only [hs, if_true, Except.ok.injEq] at hok
      subst hok
      simp
    | false =>
      simp only [hs, Bool.false_eq_true, if_false, Except.ok.injEq] at hok
      subst hok
      exact hfilter _

/-- The documents table of the concrete C10 run: one document, stored with
two identical embeddings. -/
def duplicatedDB : DB :=
  { documents := [sampleDocument]
    embeddings := [{ document_id := 1, embedding := [1] },
                   { document_id := 1, embedding := [1] }] }

/-- The similarity row both duplicate embeddings of `duplicatedDB` produce
under the everywhere-zero distance. -/
def duplicatedRow : SimilarityRow :=
  { id := 1, content := "hello", meta_info := [], created_at := 0
    similarity := 1 }

/-- Witness for C10: one document stored with two identical embeddings, so
the same id appears twice among the similarity results, yet its id occurs
once in the sources of the successful query response. -/
theorem query_sources_distinct_ids_witness :
    ((RAG.QueryOutcome.response
        { response :=
            { answer := degradedAnswerPrefix ++ "hello"
              sources := [sampleDocument] }
          llmInvoked := true }).sources.map Document.id).Nodup :=
  query_sources_distinct_ids (fun _ _ => 0) (some "test-key")
    (fun _ => .ok 200 ""
      (some { dataPresent := true
              items := [{ hasEmbedding := true, embedding := [1] }] }))
    (fun _ => .raised "connection reset")
    duplicatedDB
    { query := "hello there", top_k := 3, model := none }
    { response :=
        { answer := degradedAnswerPrefix ++ "hello"
          sources := [sampleDocument] }
      llmInvoked := true }
    (by decide)
    (by
      have h1 : (get_embedding (some "test-key")
          (fun _ => .ok 200 ""
            (some { dataPresent := true
                    items := [{ hasEmbedding := true, embedding := [1] }] }))
          "hello there").result = .ok [1] := rfl
      have h2 : search_similar_documents (fun _ _ => 0) duplicatedDB [1] 3 =
          [duplicatedRow, duplicatedRow] := by
        simp [search_similar_documents, joinRows, duplicatedDB, duplicatedRow,
          sampleDocument, simGE, List.insertionSort, List.orderedInsert]
      simp only [query_documents, h1, h2]
      rfl)

/-- C2 counterexample: a valid-JSON message that is missing the required
`document_id` field is negatively-acknowledged WITH redelivery by the worker
callback — it is requeued, not dropped, contrary to the claim. -/
theorem malformed_message_dropped_counterexample :
    callback (fun _ => .ok [1]) (fun _ _ => .ok ())
        (some (Json.obj [("content", Json.str "hello")])) = .nackRequeue ∧
    callback (fun _ => .ok [1]) (fun _ _ => .ok ())
        (some (Json.obj [("content", Json.str "hello")])) ≠ .nackDrop := by
  constructor
  · rfl
  · intro h
    exact absurd (h : AckAction.nackRequeue = AckAction.nackDrop) (by decide)

/-- C2 amended: only a body that fails JSON decoding is dropped without
redelivery; a decoded body missing `document_id` or `content` raises
KeyError, lands in the generic handler, and is negatively-acknowledged WITH
redelivery. -/
theorem malformed_message_handling
    (embed : Json → Except String (List ℚ))
    (save : Json → List ℚ → Except String Unit) :
    callback embed save none = .nackDrop ∧
    ∀ msg : Json,
      (jsonGet msg "document_id" = none ∨ jsonGet msg "content" = none) →
      callback embed save (some msg) = .nackRequeue := by
  refine ⟨rfl, ?_⟩
  intro msg h
  rcases h with h | h
  · simp [callback, h]
  · cases hdid : jsonGet msg "document_id" with
    | none => simp [callback, hdid]
    | some did => simp [callback, hdid, h]

/-- Witness for C2 (amended): a decoded body missing `content` is requeued. -/
theorem malformed_message_handling_witness :
    callback (fun _ => .ok [1]) (fun _ _ => .ok ())
      (some (Json.obj [("document_id", Json.num 7)])) = .nackRequeue :=
  (malformed_message_handling (fun _ => .ok [1]) (fun _ _ => .ok ())).2
    (Json.obj [("document_id", Json.num 7)]) (Or.inr rfl)

/-- C3: for a well-formed message, the worker acknowledges exactly when both
the embedding computation and the vector-store write succeed, and any failure
of either step yields a negative acknowledgment with redelivery. -/
theorem wellformed_ack_iff_embed_and_save_succeed
    (embed : Json → Except String (List ℚ))
    (save : Json → List ℚ → Except String Unit)
    (msg did c : Json)
    (hdid : jsonGet msg "document_id" = some did)
    (hc : jsonGet msg "content" = some c) :
    (callback embed save (some msg) = .ack ↔
      ∃ v, embed c = .ok v ∧ save did v = .ok ()) ∧
    (∀ e, embed c = .error e →
      callback embed save (some msg) = .nackRequeue) ∧
    (∀ v e, embed c = .ok v → save did v = .error e →
      callback embed save (some msg) = .nackRequeue) := by
  refine ⟨⟨?_, ?_⟩, ?_, ?_⟩
  · intro h
    simp only [callback, hdid, hc] at h
    cases hemb : embed c with
    | error e => simp [process_document, hemb] at h
    | ok v =>
      cases hsave : save did v with
      | error e => simp [process_document, hemb, hsave] at h
      | ok u => exact ⟨v, rfl, by cases u; exact hsave⟩
  · rintro ⟨v, hemb, hsave⟩
    simp [callback, hdid, hc, process_document, hemb, hsave]
  · intro e hemb
    simp [callback, hdid, hc, process_document, hemb]
  · intro v e hemb hsave
    simp [callback, hdid, hc, process_document, hemb, hsave]

/-- Witness for C3: embedding and save both succeed on a well-formed message,
so the worker acknowledges. -/
theorem wellformed_ack_iff_embed_and_save_succeed_witness :
    callback (fun _ => .ok [1, 2]) (fun _ _ => .ok ())
      (some (Json.obj [("document_id", Json.num 1),
                       ("content", Json.str "The sky is blue.")])) = .ack :=
  ((wellformed_ack_iff_embed_and_save_succeed (fun _ => .ok [1, 2])
      (fun _ _ => .ok ())
      (Json.obj [("document_id", Json.num 1),
                 ("content", Json.str "The sky is blue.")])
      (Json.num 1) (Json.str "The sky is blue.") rfl rfl).1).mpr
    ⟨[1, 2], rfl, rfl⟩

/-- C1 counterexample: the record store creates the row, the queue publish
raises, and `create_document` does NOT return the created Document — the
queue error propagates to the caller. -/
theorem create_document_queue_failure_counterexample :
    create_document (fun _ => .ok sampleDocument)
        (fun _ _ _ => .error "queue connection refused")
        { content := "hello", meta_info := [] } =
      .error "queue connection refused" ∧
    create_document (fun _ => .ok sampleDocument)
        (fun _ _ _ => .error "queue connection refused")
        { content := "hello", meta_info := [] } ≠ .ok sampleDocument := by
  constructor
  · rfl
  · intro h
    simp [create_document] at h

/-- C1 amended: once the record-store insert succeeds, `create_document`
returns the created Document when the queue publish returns normally, but a
publish exception propagates unchanged to the caller (there is no try/except
around `publish_document`), so the Document is not returned. -/
theorem create_document_propagates_publish_failure
    (insertDocument : DocumentCreate → Except String Document)
    (publish : Nat → String → List (String × String) → Except String Unit)
    (document : DocumentCreate) (d : Document)
    (hins : insertDocument document = .ok d) :
    (∀ e, publish d.id d.content d.meta_info = .error e →
      create_document insertDocument publish document = .error e) ∧
    (publish d.id d.content d.meta_info = .ok () →
      create_document insertDocument publish document = .ok d) := by
  constructor
  · intro e hpub
    simp [create_document, hins, hpub]
  · intro hpub
    simp [create_document, hins, hpub]

/-- Witness for C1 (amended): a concrete publish failure propagates. -/
theorem create_document_propagates_publish_failure_witness :
    create_document (fun _ => .ok sampleDocument)
      (fun _ _ _ => .error "AMQP connection error")
      { content := "hello", meta_info := [] } =
      .error "AMQP connection error" :=
  (create_document_propagates_publish_failure (fun _ => .ok sampleDocument)
      (fun _ _ _ => .error "AMQP connection error")
      { content := "hello", meta_info := [] } sampleDocument rfl).1
    "AMQP connection error" rfl

end RAG
